import Mathlib

/-!
Verification of the e-mail transaction extraction core
(`gmail_manager.py`, `main.py`): text normalisation, amount parsing,
date normalisation, the tabular extractor and the dispatch/dedup logic,
embedded shallowly.  Python machine floats are modelled as exact decimals
interpreted in `ℚ`; the relevant Python library routines
(`re.sub`-based whitespace collapsing, `str.replace`, `str.strip`,
`float`, `datetime.strptime` for the three fixed formats) are embedded
on the character lists the program actually feeds them (ASCII).
Fallible code returns `Except`: `.error` marks a raised exception.
-/

/-- Python's whitespace class `\s` (and `str.strip()`'s default set) on the
ASCII range: space, tab, newline, carriage return, vertical tab, form feed. -/
def pyIsSpace (c : Char) : Bool :=
  c == ' ' || c == '\t' || c == '\n' || c == '\r' || c == '\x0b' || c == '\x0c'

/-- `re.sub(r"\s+", " ", s)`: every maximal run of whitespace characters
becomes a single space (the run's last character emits the space). -/
def collapseWs : List Char → List Char
  | [] => []
  | [c] => if pyIsSpace c then [' '] else [c]
  | c :: d :: rest =>
    if pyIsSpace c then
      if pyIsSpace d then collapseWs (d :: rest)
      else ' ' :: collapseWs (d :: rest)
    else c :: collapseWs (d :: rest)

/-- Leading-whitespace removal, as in `str.lstrip()`. -/
def lstripWs (l : List Char) : List Char := l.dropWhile pyIsSpace

/-- Trailing-whitespace removal, as in `str.rstrip()`. -/
def rstripWs (l : List Char) : List Char := (l.reverse.dropWhile pyIsSpace).reverse

/-- `_clean_text` of `gmail_manager.py` on an actual string:
`re.sub(r"\s+", " ", s).strip()`. -/
def clean_text (s : String) : String := ⟨rstripWs (lstripWs (collapseWs s.data))⟩

/-- `_clean_text` including its `None` guard (`if s is None: return ""`). -/
def clean_text_opt : Option String → String
  | none => ""
  | some s => clean_text s

/-- `s.rstrip(":")`: drop every trailing colon. -/
def rstripColon (l : List Char) : List Char := (l.reverse.dropWhile (· == ':')).reverse

/-- `_norm_label` of `gmail_manager.py`: `_clean_text`, then `rstrip(":")`,
then `casefold()` (on the ASCII labels involved, casefold = lowercase). -/
def norm_label (s : String) : String := ⟨(rstripColon (clean_text s).data).map Char.toLower⟩

/-- Numeric value of an ASCII digit. -/
def digitVal (c : Char) : Nat := c.toNat - 48

/-- Value of a digit string, most significant first. -/
def natVal (l : List Char) : Nat := l.foldl (fun a c => 10 * a + digitVal c) 0

/-- CPython `float(s)` restricted to the alphabet that survives
`re.sub(r"[^\d.\-]", "", _)` — digits, dots and minus signs (no exponent
letter, infinity or nan can survive the stripping).  A well-formed literal
is an optional sign followed by `digits`, `digits.digits?` or `.digits`;
anything else (a second dot, an interior minus, a bare `-` or `.`) raises
`ValueError`, i.e. yields `none` here.  The value is returned as an exact
decimal: (negative?, mantissa, number of fraction digits). -/
def pyFloatDec (l : List Char) : Option (Bool × Nat × Nat) :=
  let signed : Bool × List Char :=
    match l with
    | '-' :: r => (true, r)
    | '+' :: r => (false, r)
    | _ => (false, l)
  let ip := signed.2.takeWhile Char.isDigit
  let r1 := signed.2.dropWhile Char.isDigit
  match r1 with
  | [] => if ip.isEmpty then none else some (signed.1, natVal ip, 0)
  | '.' :: r2 =>
    let fp := r2.takeWhile Char.isDigit
    let r3 := r2.dropWhile Char.isDigit
    if r3.isEmpty && !(ip.isEmpty && fp.isEmpty) then
      some (signed.1, natVal ip * 10 ^ fp.length + natVal fp, fp.length)
    else none
  | _ => none

/-- The rational a parsed decimal denotes. -/
def ratOfDec (v : Bool × Nat × Nat) : ℚ :=
  (if v.1 then -(v.2.1 : ℚ) else (v.2.1 : ℚ)) / 10 ^ v.2.2

/-- The dictionary `_parse_amount` returns: `amount_raw` and `amount_num`. -/
structure AmountParse where
  amount_raw : String
  amount_num : Option ℚ

/-- `_parse_amount` of `gmail_manager.py`: clean the input, keep only
digits/dot/minus, and run `float` on the residue unless it is empty.
`float` on a malformed residue raises `ValueError`, which `_parse_amount`
does not catch: that is the `.error` branch. -/
def parse_amount (s : String) : Except String AmountParse :=
  let raw := clean_text s
  let num := raw.data.filter (fun c => c.isDigit || c == '.' || c == '-')
  if num.isEmpty then .ok ⟨raw, none⟩
  else
    match pyFloatDec num with
    | some v => .ok ⟨raw, some (ratOfDec v)⟩
    | none => .error "ValueError: could not convert string to float"

/-!
`datetime.strptime` for the three formats `convert_date` tries.
CPython compiles a format into a regular expression — for these formats
the token patterns are `%d ↦ 3[01]|[12]\d|0[1-9]|[1-9]`,
`%b ↦ the twelve month abbreviations (case-insensitively)`,
`%Y ↦ \d\d\d\d`, `%H ↦ 2[0-3]|[0-1]\d|\d`, `%M ↦ [0-5]\d|\d`, and a
whitespace run in the format matches `\s+` — takes the regex's first
(leftmost-preference, depth-first) match of the data string, and raises
`ValueError` either when there is no match or when the match does not
consume the whole string ("unconverted data remains").  Each token
parser below returns its alternatives in the regex's preference order;
`List.flatMap` then enumerates complete parses in depth-first order.
-/

/-- Alternatives of `%d` (`3[01]|[12]\d|0[1-9]|[1-9]`), in preference order. -/
def dayCands : List Char → List (Nat × List Char)
  | [] => []
  | [c] => if c.isDigit && c != '0' then [(digitVal c, [])] else []
  | c :: d :: r =>
    (if c == '3' && (d == '0' || d == '1') then [(30 + digitVal d, r)] else []) ++
    (if (c == '1' || c == '2') && d.isDigit then [(10 * digitVal c + digitVal d, r)] else []) ++
    (if c == '0' && d.isDigit && d != '0' then [(digitVal d, r)] else []) ++
    (if c.isDigit && c != '0' then [(digitVal c, d :: r)] else [])

/-- Alternatives of `%H` (`2[0-3]|[0-1]\d|\d`), in preference order. -/
def hourCands : List Char → List (Nat × List Char)
  | [] => []
  | [c] => if c.isDigit then [(digitVal c, [])] else []
  | c :: d :: r =>
    (if c == '2' && (d == '0' || d == '1' || d == '2' || d == '3') then
      [(20 + digitVal d, r)] else []) ++
    (if (c == '0' || c == '1') && d.isDigit then [(10 * digitVal c + digitVal d, r)] else []) ++
    (if c.isDigit then [(digitVal c, d :: r)] else [])

/-- Alternatives of `%M` (`[0-5]\d|\d`), in preference order. -/
def minuteCands : List Char → List (Nat × List Char)
  | [] => []
  | [c] => if c.isDigit then [(digitVal c, [])] else []
  | c :: d :: r =>
    (if c.isDigit && digitVal c ≤ 5 && d.isDigit then
      [(10 * digitVal c + digitVal d, r)] else []) ++
    (if c.isDigit then [(digitVal c, d :: r)] else [])

/-- `%Y` (`\d\d\d\d`): exactly four digits. -/
def yearCands : List Char → List (Nat × List Char)
  | a :: b :: c :: d :: r =>
    if a.isDigit && b.isDigit && c.isDigit && d.isDigit then
      [(1000 * digitVal a + 100 * digitVal b + 10 * digitVal c + digitVal d, r)]
    else []
  | _ => []

/-- Case-insensitive (ASCII) match of a fixed word at the front of the input;
the remainder on success. -/
def eatWordCI : List Char → List Char → Option (List Char)
  | [], l => some l
  | _ :: _, [] => none
  | p :: ps, c :: cs => if c.toLower == p then eatWordCI ps cs else none

/-- The month abbreviations `%b` recognises, lowercased. -/
def monthNames : List String :=
  ["jan", "feb", "mar", "apr", "may", "jun", "jul", "aug", "sep", "oct", "nov", "dec"]

/-- Alternatives of `%b`: the one month abbreviation at the front, as 1..12. -/
def monthCands (l : List Char) : List (Nat × List Char) :=
  monthNames.enum.filterMap fun p =>
    (eatWordCI p.2.data l).map fun r => (p.1 + 1, r)

/-- Greedy `\s+`: consume one or more whitespace characters, longest first. -/
def wsCands (l : List Char) : List (List Char) :=
  let k := (l.takeWhile pyIsSpace).length
  (List.range k).map fun j => l.drop (k - j)

/-- The literal `:` of the format. -/
def litColon : List Char → List (List Char)
  | ':' :: r => [r]
  | _ => []

/-- What `strptime` extracts for these formats (year defaulted to 1900 when
the format has no `%Y`, exactly as CPython does). -/
structure Strp where
  day : Nat
  month : Nat
  year : Nat
  hour : Nat
  minute : Nat

/-- All parses of `"%d %b %Y %H:%M"`, depth-first. -/
def runFmt1 (l : List Char) : List (Strp × List Char) :=
  (dayCands l).flatMap fun dc =>
  (wsCands dc.2).flatMap fun r2 =>
  (monthCands r2).flatMap fun mc =>
  (wsCands mc.2).flatMap fun r4 =>
  (yearCands r4).flatMap fun yc =>
  (wsCands yc.2).flatMap fun r6 =>
  (hourCands r6).flatMap fun hc =>
  (litColon hc.2).flatMap fun r8 =>
  (minuteCands r8).map fun nc => (⟨dc.1, mc.1, yc.1, hc.1, nc.1⟩, nc.2)

/-- All parses of `"%d %b %H:%M %Y"`, depth-first. -/
def runFmt2 (l : List Char) : List (Strp × List Char) :=
  (dayCands l).flatMap fun dc =>
  (wsCands dc.2).flatMap fun r2 =>
  (monthCands r2).flatMap fun mc =>
  (wsCands mc.2).flatMap fun r4 =>
  (hourCands r4).flatMap fun hc =>
  (litColon hc.2).flatMap fun r6 =>
  (minuteCands r6).flatMap fun nc =>
  (wsCands nc.2).flatMap fun r8 =>
  (yearCands r8).map fun yc => (⟨dc.1, mc.1, yc.1, hc.1, nc.1⟩, yc.2)

/-- All parses of `"%d %b %H:%M"` (year defaults to 1900), depth-first. -/
def runFmt3 (l : List Char) : List (Strp × List Char) :=
  (dayCands l).flatMap fun dc =>
  (wsCands dc.2).flatMap fun r2 =>
  (monthCands r2).flatMap fun mc =>
  (wsCands mc.2).flatMap fun r4 =>
  (hourCands r4).flatMap fun hc =>
  (litColon hc.2).flatMap fun r6 =>
  (minuteCands r6).map fun nc => (⟨dc.1, mc.1, 1900, hc.1, nc.1⟩, nc.2)

/-- `re.match` + the "unconverted data remains" check: the first depth-first
match must consume the whole string, else `ValueError` (`none`). -/
def strptimeWith (run : List Char → List (Strp × List Char)) (l : List Char) : Option Strp :=
  match (run l).head? with
  | some (st, []) => some st
  | _ => none

/-- Gregorian leap year, as `datetime` uses it. -/
def isLeap (y : Nat) : Bool := (y % 4 == 0 && y % 100 != 0) || y % 400 == 0

/-- Days in a month (the `datetime` constructor's day-range check). -/
def daysInMonth (m y : Nat) : Nat :=
  if m == 2 then (if isLeap y then 29 else 28)
  else if m == 4 || m == 6 || m == 9 || m == 11 then 30
  else 31

/-- `str.replace(pat, repl)` (non-empty pattern): scan left to right, replace
every occurrence, continue scanning right after the replaced occurrence.  The
`skip` counter carries the pattern characters still to be consumed after a
match is emitted. -/
def replaceAux (pat repl : List Char) : List Char → Nat → List Char
  | [], _ => []
  | _ :: rest, skip + 1 => replaceAux pat repl rest skip
  | c :: rest, 0 =>
    if pat.isPrefixOf (c :: rest) && !pat.isEmpty then
      repl ++ replaceAux pat repl rest (pat.length - 1)
    else c :: replaceAux pat repl rest 0

/-- `s.replace(pat, repl)` on strings. -/
def pyReplace (s pat repl : String) : String := ⟨replaceAux pat.data repl.data s.data 0⟩

/-- `str.strip()`: whitespace trimmed from both ends. -/
def pyStrip (s : String) : String := ⟨rstripWs (lstripWs s.data)⟩

/-- Decimal digits of a natural number (fuel-structured so it computes by
reduction; the fuel bounds the number of digits). -/
def natDigitsAux : Nat → Nat → List Char
  | 0, _ => []
  | fuel + 1, n =>
    if n < 10 then [Char.ofNat (48 + n)]
    else natDigitsAux fuel (n / 10) ++ [Char.ofNat (48 + n % 10)]

/-- Decimal rendering of a natural number. -/
def natToStr (n : Nat) : String := ⟨natDigitsAux (n + 1) n⟩

/-- Zero-pad to two digits, as `strftime`'s `%m`/`%d` do. -/
def pad2 (n : Nat) : String := if n < 10 then "0" ++ natToStr n else natToStr n

/-- Zero-pad to four digits, as `strftime`'s `%Y` does on this platform. -/
def pad4 (n : Nat) : String :=
  if n < 10 then "000" ++ natToStr n
  else if n < 100 then "00" ++ natToStr n
  else if n < 1000 then "0" ++ natToStr n
  else natToStr n

/-- `dt.strftime("%Y-%m-%d")`. -/
def strftimeYmd (y m d : Nat) : String := pad4 y ++ "-" ++ pad2 m ++ "-" ++ pad2 d

/-- One iteration of `convert_date`'s format loop body, `try`-wrapped in the
source: `strptime` (its `datetime` constructor re-checks the day against the
month length), then the `if dt.year == 1900: dt = dt.replace(year=current)`
substitution, whose own day-range re-check also raises inside the `try`.
`none` is the caught `ValueError`, sending the loop to the next format. -/
def tryFmt (run : List Char → List (Strp × List Char)) (currentYear : Nat)
    (l : List Char) : Option (Nat × Nat × Nat) :=
  match strptimeWith run l with
  | none => none
  | some st =>
    if 1 ≤ st.day && st.day ≤ daysInMonth st.month st.year then
      if st.year == 1900 then
        if st.day ≤ daysInMonth st.month currentYear then
          some (currentYear, st.month, st.day)
        else none
      else some (st.year, st.month, st.day)
    else none

/-- `convert_date` of `gmail_manager.py`.  `currentYear` stands for
`datetime.now().year`.  The cleaned input is tried against the three formats
in order; the first success is rendered as `YYYY-MM-DD`.  When every format
fails, `dt` is the *string* `""` and `dt.strftime(...)` raises
`AttributeError` — the `.error` branch. -/
def convert_date (currentYear : Nat) (raw_date : String) : Except String String :=
  let clean_date := pyStrip (pyReplace (pyReplace raw_date "(SGT)" "") "SGT" "")
  match tryFmt runFmt1 currentYear clean_date.data with
  | some v => .ok (strftimeYmd v.1 v.2.1 v.2.2)
  | none =>
    match tryFmt runFmt2 currentYear clean_date.data with
    | some v => .ok (strftimeYmd v.1 v.2.1 v.2.2)
    | none =>
      match tryFmt runFmt3 currentYear clean_date.data with
      | some v => .ok (strftimeYmd v.1 v.2.1 v.2.2)
      | none => .error "AttributeError: str object has no attribute strftime"

/-- A table row as `extract_paylah_fields` sees it after lxml parsing: the
XPath `//tr[td]` guarantees a first cell; `td1` is the first cell's text
content, `td2` the second cell's text content when that cell exists
(`tr.xpath("td[2]")` empty otherwise). -/
structure TableRow where
  td1 : String
  td2 : Option String

/-- The output dictionary of `extract_paylah_fields`, keys as in the source;
`none` is Python's `None`. -/
structure PaylahFields where
  date_time : Option String
  amount : Option String
  amount_num : Option ℚ
  to_ : Option String

/-- The label set `wanted` of `extract_paylah_fields`. -/
def wanted : List String := ["date & time", "amount", "to"]

/-- The body of `extract_paylah_fields`' row loop: normalise the first cell's
label; on a wanted label take the cleaned second cell (or `""` when the row
has no second cell) and assign the matching key.  The `amount` branch calls
`_parse_amount`, whose uncaught `ValueError` aborts the whole extractor. -/
def paylahStep (acc : PaylahFields) (row : TableRow) : Except String PaylahFields :=
  let label_norm := norm_label row.td1
  if wanted.contains label_norm then
    let value :=
      match row.td2 with
      | some cell => clean_text cell
      | none => ""
    if label_norm == "date & time" then .ok { acc with date_time := some value }
    else if label_norm == "amount" then
      match parse_amount value with
      | .ok pa => .ok { acc with amount := some value, amount_num := pa.amount_num }
      | .error e => .error e
    else if label_norm == "to" then .ok { acc with to_ := some value }
    else .ok acc
  else .ok acc

/-- `extract_paylah_fields` of `gmail_manager.py`, from the row list the
lxml tree yields for `//tr[td]` in document order; starts from the
all-`None` result dictionary. -/
def extract_paylah_fields (rows : List TableRow) : Except String PaylahFields :=
  rows.foldlM paylahStep ⟨none, none, none, none⟩

/-- Python truthiness of an optional string (`if payment_details["date_time"]:`):
`None` and `""` are falsy. -/
def truthy : Option String → Bool
  | none => false
  | some s => !(s == "")

/-- The classification a message gets from `main.py`'s `if`/`elif` chain. -/
inductive MsgClass where
  | payment
  | income
  | card
  | skipped

/-- The dispatch of `main.py` (lines 32-50): test the tabular extractor's
`date_time` for truthiness, then the prose extractor's, then the card
extractor's; a message passing none of the three tests is skipped. -/
def dispatch (pay inc card : Option String) : MsgClass :=
  if truthy pay then .payment
  else if truthy inc then .income
  else if truthy card then .card
  else .skipped

/-- Membership of an optional value in a list, as Python's `in` sees it:
`None` is never an element of a list of present values. -/
def optElem {α : Type} [DecidableEq α] : Option α → List α → Bool
  | none, _ => false
  | some x, l => decide (x ∈ l)

/-- The dedup guard of `main.py` (payment: lines 35-38, card: lines 47-48):
the record is added to the store exactly when this is `true`. -/
def record_is_new (dates : List String) (amounts : List ℚ) (names : List String)
    (d : String) (a : Option ℚ) (n : Option String) : Bool :=
  !(decide (d ∈ dates)) || !(optElem a amounts) || !(optElem n names)

/-- The spec's wording of novelty: the normalised date is absent from the
known dates, OR the numeric amount is absent from the known amounts, OR the
counterparty is absent from the known names. -/
def spec_is_new (dates : List String) (amounts : List ℚ) (names : List String)
    (d : String) (a : Option ℚ) (n : Option String) : Prop :=
  d ∉ dates ∨ (∀ q ∈ amounts, a ≠ some q) ∨ (∀ m ∈ names, n ≠ some m)

/-- A character `clean_text`'s output may contain: any whitespace in it is the
plain space. -/
def okChar (c : Char) : Bool := !pyIsSpace c || c == ' '

/-- Whitespace-normal form: every whitespace character is a plain space and no
two adjacent characters are both whitespace. -/
def wsNormal : List Char → Bool
  | [] => true
  | [c] => okChar c
  | c :: d :: rest => okChar c && !(pyIsSpace c && pyIsSpace d) && wsNormal (d :: rest)

theorem wsNormal_tail {c : Char} {l : List Char} (h : wsNormal (c :: l) = true) :
    wsNormal l = true := by
  cases l with
  | nil => rfl
  | cons d r =>
    simp only [wsNormal, Bool.and_eq_true] at h
    exact h.2

theorem wsNormal_head {c : Char} {l : List Char} (h : wsNormal (c :: l) = true) :
    okChar c = true := by
  cases l with
  | nil => exact h
  | cons d r =>
    simp only [wsNormal, Bool.and_eq_true] at h
    exact h.1.1

theorem wsNormal_cons_of_not_space {c : Char} {l : List Char} (hc : pyIsSpace c = false)
    (hl : wsNormal l = true) : wsNormal (c :: l) = true := by
  cases l with
  | nil => simp [wsNormal, okChar, hc]
  | cons d r => simp [wsNormal, okChar, hc, hl]

theorem collapseWs_cons_of_not_space {c : Char} (l : List Char) (hc : pyIsSpace c = false) :
    collapseWs (c :: l) = c :: collapseWs l := by
  cases l <;> simp [collapseWs, hc]

theorem wsNormal_collapseWs (l : List Char) : wsNormal (collapseWs l) = true := by
  induction l using collapseWs.induct with
  | case1 => rfl
  | case2 c hc =>
    simp only [collapseWs, if_pos hc]
    decide
  | case3 c hc =>
    have hc' : pyIsSpace c = false := by simpa using hc
    simp [collapseWs, hc', wsNormal, okChar]
  | case4 c d rest hc hd ih =>
    simpa [collapseWs, hc, hd] using ih
  | case5 c d rest hc hd ih =>
    have hd' : pyIsSpace d = false := by simpa using hd
    rw [collapseWs_cons_of_not_space rest hd'] at ih
    simp only [collapseWs, if_pos hc, if_neg (by simp [hd'] : ¬pyIsSpace d = true),
      collapseWs_cons_of_not_space rest hd']
    simp only [wsNormal, Bool.and_eq_true]
    exact ⟨⟨by decide, by simp [hd']⟩, ih⟩
  | case6 c d rest hc ih =>
    have hc' : pyIsSpace c = false := by simpa using hc
    simp only [collapseWs, if_neg hc]
    exact wsNormal_cons_of_not_space hc' ih

theorem collapseWs_of_wsNormal (l : List Char) : wsNormal l = true → collapseWs l = l := by
  induction l using collapseWs.induct with
  | case1 => intro _; rfl
  | case2 c hc =>
    intro h
    have hsp : c = ' ' := by
      simp only [wsNormal, okChar, hc, Bool.not_true, Bool.false_or, beq_iff_eq] at h
      exact h
    simp [collapseWs, hc, hsp]
  | case3 c hc =>
    intro _
    simp [collapseWs, hc]
  | case4 c d rest hc hd ih =>
    intro h
    exfalso
    simp [wsNormal, hc, hd] at h
  | case5 c d rest hc hd ih =>
    intro h
    have hsp : c = ' ' := by
      have hok := wsNormal_head h
      simp only [okChar, hc, Bool.not_true, Bool.false_or, beq_iff_eq] at hok
      exact hok
    rw [collapseWs, if_pos hc, if_neg hd, ih (wsNormal_tail h), hsp]
  | case6 c d rest hc ih =>
    intro h
    rw [collapseWs, if_neg hc, ih (wsNormal_tail h)]

theorem wsNormal_append_left {l₁ l₂ : List Char} (h : wsNormal (l₁ ++ l₂) = true) :
    wsNormal l₁ = true := by
  induction l₁ with
  | nil => rfl
  | cons c t ih =>
    cases t with
    | nil =>
      have : wsNormal (c :: l₂) = true := by simpa using h
      exact wsNormal_head this
    | cons d r =>
      simp only [List.cons_append, wsNormal, Bool.and_eq_true] at h ⊢
      exact ⟨h.1, ih h.2⟩

theorem wsNormal_dropWhile (l : List Char) (h : wsNormal l = true) :
    wsNormal (l.dropWhile pyIsSpace) = true := by
  induction l with
  | nil => rfl
  | cons c t ih =>
    by_cases hc : pyIsSpace c = true
    · rw [List.dropWhile_cons_of_pos hc]
      exact ih (wsNormal_tail h)
    · rwa [List.dropWhile_cons_of_neg (by simp [hc])]

theorem rstripWs_append (l : List Char) :
    rstripWs l ++ (l.reverse.takeWhile pyIsSpace).reverse = l := by
  rw [rstripWs, ← List.reverse_append, List.takeWhile_append_dropWhile, List.reverse_reverse]

theorem wsNormal_rstripWs (l : List Char) (h : wsNormal l = true) :
    wsNormal (rstripWs l) = true := by
  have h2 : wsNormal (rstripWs l ++ (l.reverse.takeWhile pyIsSpace).reverse) = true := by
    rw [rstripWs_append]
    exact h
  exact wsNormal_append_left h2

/-- The head (if any) is not whitespace. -/
def headNS : List Char → Bool
  | [] => true
  | c :: _ => !pyIsSpace c

theorem headNS_dropWhile (l : List Char) : headNS (l.dropWhile pyIsSpace) = true := by
  induction l with
  | nil => rfl
  | cons c t ih =>
    by_cases hc : pyIsSpace c = true
    · rwa [List.dropWhile_cons_of_pos hc]
    · rw [List.dropWhile_cons_of_neg (by simp [hc])]
      simp only [headNS, Bool.not_eq_true']
      simpa using hc

theorem dropWhile_of_headNS {l : List Char} (h : headNS l = true) :
    l.dropWhile pyIsSpace = l := by
  cases l with
  | nil => rfl
  | cons c t =>
    simp only [headNS, Bool.not_eq_true'] at h
    rw [List.dropWhile_cons_of_neg (by simp [h])]

theorem headNS_rstripWs {l : List Char} (h : headNS l = true) :
    headNS (rstripWs l) = true := by
  have happ := rstripWs_append l
  cases hr : rstripWs l with
  | nil => rfl
  | cons c t =>
    rw [hr] at happ
    rw [← happ] at h
    simpa [headNS] using h

theorem rstripWs_of_lastNS {l : List Char} (h : headNS l.reverse = true) :
    rstripWs l = l := by
  unfold rstripWs
  rw [dropWhile_of_headNS h, List.reverse_reverse]

theorem lastNS_rstripWs (l : List Char) : headNS (rstripWs l).reverse = true := by
  unfold rstripWs
  rw [List.reverse_reverse]
  exact headNS_dropWhile l.reverse

theorem clean_text_idem (s : String) : clean_text (clean_text s) = clean_text s := by
  unfold clean_text
  have hg : wsNormal (rstripWs (lstripWs (collapseWs s.data))) = true :=
    wsNormal_rstripWs _ (wsNormal_dropWhile _ (wsNormal_collapseWs _))
  have hh : headNS (rstripWs (lstripWs (collapseWs s.data))) = true :=
    headNS_rstripWs (headNS_dropWhile _)
  have hl : headNS (rstripWs (lstripWs (collapseWs s.data))).reverse = true :=
    lastNS_rstripWs _
  simp only [String.data]
  rw [collapseWs_of_wsNormal _ hg]
  rw [show lstripWs (rstripWs (lstripWs (collapseWs s.data))) =
        rstripWs (lstripWs (collapseWs s.data)) from dropWhile_of_headNS hh]
  rw [rstripWs_of_lastNS hl]

/-- C1: the Amount Parser is *not* total.  On `""` the empty residue yields an
absent `amount_num`, and on `"SGD -10.00"` / `"SGD 1,234.50"` the stripped
residue parses (to `-10` resp. `1234.5`); but on `"1.2.3"` the residue is a
malformed number and `float` raises `ValueError`, which `_parse_amount` does
not catch — it raises instead of returning `amount_num = None`. -/
theorem parse_amount_malformed_residue_raises :
    parse_amount "1.2.3" = .error "ValueError: could not convert string to float" ∧
    parse_amount "" = .ok ⟨"", none⟩ ∧
    parse_amount "SGD -10.00" = .ok ⟨"SGD -10.00", some (-10)⟩ ∧
    parse_amount "SGD 1,234.50" = .ok ⟨"SGD 1,234.50", some 1234.5⟩ := by
  refine ⟨rfl, rfl, ?_, ?_⟩
  · have h : parse_amount "SGD -10.00" = .ok ⟨"SGD -10.00", some (ratOfDec (true, 1000, 2))⟩ := rfl
    rw [h]
    norm_num [ratOfDec]
  · have h : parse_amount "SGD 1,234.50" =
        .ok ⟨"SGD 1,234.50", some (ratOfDec (false, 123450, 2))⟩ := rfl
    rw [h]
    norm_num [ratOfDec]

/-- C2: on an input no known date format parses, `convert_date` does not
return a sentinel string — `dt` is left as the string `""` and
`dt.strftime("%Y-%m-%d")` raises `AttributeError`, whatever the current
year is. -/
theorem convert_date_no_format_raises (y : Nat) :
    convert_date y "not a date" = .error "AttributeError: str object has no attribute strftime" :=
  rfl

/-- C3: the Tabular Extractor is *not* total: a table whose `Amount:` row
carries the value `"1.2.3"` makes `_parse_amount` raise `ValueError`, which
`extract_paylah_fields` propagates instead of returning a record with
`amount_num` absent. -/
theorem extract_paylah_amount_raises :
    extract_paylah_fields [⟨"Amount:", some "1.2.3"⟩] =
      .error "ValueError: could not convert string to float" :=
  rfl

/-- C4: the dedup guard of `main.py` adds a record exactly when its
normalised date is absent from the known dates, OR its numeric amount is
absent from the known amounts, OR its counterparty is absent from the known
names — in particular a record whose date is known but whose amount and
counterparty are both unknown is still new. -/
theorem dedup_or_semantics (dates : List String) (amounts : List ℚ) (names : List String)
    (d : String) (a : Option ℚ) (n : Option String) :
    record_is_new dates amounts names d a n = true ↔ spec_is_new dates amounts names d a n := by
  cases a <;> cases n <;>
    simp [record_is_new, spec_is_new, optElem, List.forall_mem_ne, or_assoc]

/-- C5: the dispatch tests the extractors' `date_time` fields in the fixed
order tabular, prose, card: whenever the tabular field is truthy the message
is a payment (so a message matching both the tabular and the prose template
is a payment, never an income), and a message whose three fields are all
falsy is skipped. -/
theorem dispatch_precedence :
    (∀ p i c, truthy p = true → dispatch p i c = .payment) ∧
    (∀ p i c, truthy p = false → truthy i = false → truthy c = false →
      dispatch p i c = .skipped) := by
  constructor
  · intro p i c hp
    simp [dispatch, hp]
  · intro p i c hp hi hc
    simp [dispatch, hp, hi, hc]

/-- C6 counterexample: `"  Date & Time : "` (space before the colon) does NOT
normalise to the canonical key `"date & time"` — `rstrip(":")` leaves the
interior space behind. -/
theorem norm_label_space_before_colon_cex :
    (norm_label "  Date & Time : " == "date & time") = false :=
  rfl

/-- C6 amended: `norm_label` folds spacing, case and trailing colons on
`"Amount:"` and `" amount "`, but `"  Date & Time : "` normalises to
`"date & time "` with a trailing space, which is not in the canonical label
set. -/
theorem norm_label_canonical_keys :
    norm_label "Amount:" = "amount" ∧
    norm_label " amount " = "amount" ∧
    norm_label "  Date & Time : " = "date & time " ∧
    wanted.contains "date & time " = false :=
  ⟨rfl, rfl, rfl, rfl⟩

/-- C7: `convert_date` strips the SGT marker, tries the three formats in
order, and substitutes the current year exactly when the matched format
carried none: for any current year `y`, the two dated forms both give
`2025-09-26` and the year-less form gives September 26 of year `y`. -/
theorem convert_date_known_formats (y : Nat) :
    convert_date y "26 Sep 2025 11:56" = .ok "2025-09-26" ∧
    convert_date y "26 Sep 11:56 2025" = .ok "2025-09-26" ∧
    convert_date y "26 Sep 11:56 (SGT)" = .ok (strftimeYmd y 9 26) :=
  ⟨rfl, rfl, rfl⟩

/-- C8: `_clean_text` is idempotent, maps `None` to the empty string, and
collapses interior whitespace runs while trimming the ends:
`clean("  a\t\tb\n") = "a b"`. -/
theorem clean_text_normalizes :
    (∀ s : String, clean_text (clean_text s) = clean_text s) ∧
    clean_text_opt none = "" ∧
    clean_text "  a\t\tb\n" = "a b" :=
  ⟨clean_text_idem, rfl, rfl⟩

/-- C9: a wanted row with no second cell assigns the empty string (not
`None`) to `date_time`; the empty string is falsy, so the dispatch treats
the record exactly like an unpopulated one — the payment branch is not
taken. -/
theorem paylah_missing_value_cell :
    extract_paylah_fields [⟨"Date & Time:", none⟩] = .ok ⟨some "", none, none, none⟩ ∧
    truthy (some "") = false ∧
    ∀ i c, dispatch (some "") i c = dispatch none i c :=
  ⟨rfl, rfl, fun _ _ => rfl⟩

/-- C10: `convert_date` keys the year substitution on the parsed year being
1900, so even an input that explicitly says 1900 — `"26 Sep 1900 11:56"` —
is renormalised to the current year `y`. -/
theorem convert_date_literal_1900 (y : Nat) :
    convert_date y "26 Sep 1900 11:56" = .ok (strftimeYmd y 9 26) :=
  rfl
